import Mathlib

/-!
# indy-obfuscator: the JNI debug helpers and the FindClass diagnostic

A shallow embedding of

* `src/obfuscator/native/debug.h`: the three caching macros
  (`CacheGlobalClassRef`, `CacheMethodID`, `CacheStaticFieldID`) and the two
  helpers built on them (`ToString`, `PrintLn`);
* `src/debug/FindClass.cpp`: `main`.

The Java Native Interface is not code of this repository. It is a parameter
of the model: every JNI function is an oracle that receives the log of
everything the process has done so far together with the call's arguments,
and answers with the call's result. A program run appends one `Event` per
JNI call (and per line written to standard output) to that log, in program
order, so the log is at once the history the oracles see and the trace the
theorems talk about.

Pointers and handles are natural numbers, `NULL` is `0`.
-/

namespace IndyObfuscator

/-! ## Data model -/

/-- A machine pointer or opaque JNI handle. -/
abbrev Ptr := Nat

/-- The null pointer. -/
abbrev NULL : Ptr := 0

abbrev jobject := Ptr
abbrev jclass := Ptr
abbrev jstring := Ptr
abbrev jmethodID := Ptr
abbrev jfieldID := Ptr

/-- The structure `JavaVMInitArgs` as `main` fills it in: the interface version, the option
strings and the `ignoreUnrecognized` flag. -/
structure JavaVMInitArgs where
  version : Int
  options : List String
  ignoreUnrecognized : Bool
  deriving DecidableEq, Repr

/-- One observable step of the process: a call across the JNI boundary with
its arguments and its result, or a line written with `printf`. -/
inductive Event where
  | JNI_CreateJavaVM (vm_args : JavaVMInitArgs) (ret : Int)
  | DestroyJavaVM (ret : Int)
  | FindClass (name : String) (ret : jclass)
  | NewGlobalRef (obj : jobject) (ret : jobject)
  | GetMethodID (clazz : jclass) (name sig : String) (ret : jmethodID)
  | GetStaticFieldID (clazz : jclass) (name sig : String) (ret : jfieldID)
  | GetStaticObjectField (clazz : jclass) (fieldID : jfieldID) (ret : jobject)
  | CallObjectMethod (obj : jobject) (methodID : jmethodID) (args : List jobject)
      (ret : jobject)
  | CallVoidMethod (obj : jobject) (methodID : jmethodID) (args : List jobject)
  | printf (text : String)
  deriving DecidableEq, Repr

/-- The log of a process, oldest event first. -/
abbrev Log := List Event

/-- The embedding interface (`jni.h`), external to the repository: each
function answers from the history of the process and the call's arguments.
`CallVoidMethod` returns nothing and therefore has no oracle. -/
structure JNI where
  JNI_CreateJavaVM : Log → JavaVMInitArgs → Int
  DestroyJavaVM : Log → Int
  FindClass : Log → String → jclass
  NewGlobalRef : Log → jobject → jobject
  GetMethodID : Log → jclass → String → String → jmethodID
  GetStaticFieldID : Log → jclass → String → String → jfieldID
  GetStaticObjectField : Log → jclass → jfieldID → jobject
  CallObjectMethod : Log → jobject → jmethodID → List jobject → jobject

/-- The constant `JNI_OK` of `jni.h`. -/
def JNI_OK : Int := 0

/-- The constant `JNI_ERR` of `jni.h`. -/
def JNI_ERR : Int := -1

/-- The constant `JNI_VERSION_1_6` of `jni.h` (`0x00010006`). -/
def JNI_VERSION_1_6 : Int := 65542

/-- The constant `EXIT_FAILURE` of `<cstdlib>`. -/
def EXIT_FAILURE : Int := 1

/-- The constant `EXIT_SUCCESS` of `<cstdlib>`; also what `main` returns when control
reaches its closing brace. -/
def EXIT_SUCCESS : Int := 0

/-! ## `debug.h`: the caching macros

Each macro declares a `static` variable initialised to `NULL` and fills it
when it is `NULL`. The variable is the first component of the state the
model threads through, the log the second. -/

/-- The macro `CacheGlobalClassRef(varName, className)`:
`if (varName == NULL) varName = NewGlobalRef(env, FindClass(env, className))`.
The argument `FindClass(...)` is evaluated before `NewGlobalRef` is called. -/
def CacheGlobalClassRef (env : JNI) (className : String)
    (s : jclass × Log) : jclass × Log :=
  if s.1 = NULL then
    let local_ref := env.FindClass s.2 className
    let log1 := s.2 ++ [Event.FindClass className local_ref]
    let global := env.NewGlobalRef log1 local_ref
    (global, log1 ++ [Event.NewGlobalRef local_ref global])
  else
    s

/-- The macro `CacheMethodID(varName, class, methodName, methodSig)`:
`if (varName == NULL) varName = GetMethodID(env, class, methodName, methodSig)`. -/
def CacheMethodID (env : JNI) (clazz : jclass) (methodName methodSig : String)
    (s : jmethodID × Log) : jmethodID × Log :=
  if s.1 = NULL then
    let id := env.GetMethodID s.2 clazz methodName methodSig
    (id, s.2 ++ [Event.GetMethodID clazz methodName methodSig id])
  else
    s

/-- The macro `CacheStaticFieldID(varName, class, fieldName, fieldSig)`:
`if (varName == NULL) varName = GetStaticFieldID(env, class, fieldName, fieldSig)`. -/
def CacheStaticFieldID (env : JNI) (clazz : jclass) (fieldName fieldSig : String)
    (s : jfieldID × Log) : jfieldID × Log :=
  if s.1 = NULL then
    let id := env.GetStaticFieldID s.2 clazz fieldName fieldSig
    (id, s.2 ++ [Event.GetStaticFieldID clazz fieldName fieldSig id])
  else
    s

/-! ## `debug.h`: `ToString` and `PrintLn` -/

/-- The function-local `static` variables of `debug.h` together with the
log of the process. `ToString` owns `Object` and `ToString`; `PrintLn` owns
`System`, `Out`, `PrintStream` and `PrintLn`. -/
structure Proc where
  Object : jclass
  ToString : jmethodID
  System : jclass
  Out : jfieldID
  PrintStream : jclass
  PrintLn : jmethodID
  log : Log
  deriving DecidableEq, Repr

/-- Every `static` of the process holds a non-null value. -/
def Proc.allResolved (p : Proc) : Prop :=
  p.Object ≠ NULL ∧ p.ToString ≠ NULL ∧ p.System ≠ NULL ∧ p.Out ≠ NULL ∧
    p.PrintStream ≠ NULL ∧ p.PrintLn ≠ NULL

instance (p : Proc) : Decidable p.allResolved := by
  unfold Proc.allResolved
  infer_instance

/-- The process before any call: every `static` is `NULL`, the log is the
given history. -/
def Proc.start (log : Log) : Proc :=
  { Object := NULL, ToString := NULL, System := NULL, Out := NULL,
    PrintStream := NULL, PrintLn := NULL, log := log }

/-- The function `ToString(env, obj)` of `debug.h`: returns the result of
`CallObjectMethod(env, obj, ToString)` and the process after the call. -/
def ToString (env : JNI) (obj : jobject) (p : Proc) : jstring × Proc :=
  let c := CacheGlobalClassRef env "java/lang/Object" (p.Object, p.log)
  let m := CacheMethodID env c.1 "toString" "()Ljava/lang/String;" (p.ToString, c.2)
  let r := env.CallObjectMethod m.2 obj m.1 []
  (r, { p with Object := c.1, ToString := m.1,
               log := m.2 ++ [Event.CallObjectMethod obj m.1 [] r] })

/-- The function `PrintLn(env, str)` of `debug.h`. -/
def PrintLn (env : JNI) (str : jstring) (p : Proc) : Proc :=
  let sys := CacheGlobalClassRef env "java/lang/System" (p.System, p.log)
  let f := CacheStaticFieldID env sys.1 "out" "Ljava/io/PrintStream;" (p.Out, sys.2)
  let out := env.GetStaticObjectField f.2 sys.1 f.1
  let log1 := f.2 ++ [Event.GetStaticObjectField sys.1 f.1 out]
  let ps := CacheGlobalClassRef env "java/io/PrintStream" (p.PrintStream, log1)
  let m := CacheMethodID env ps.1 "println" "(Ljava/lang/String;)V" (p.PrintLn, ps.2)
  { p with System := sys.1, Out := f.1, PrintStream := ps.1, PrintLn := m.1,
           log := m.2 ++ [Event.CallVoidMethod out m.1 [str]] }

/-- The statement `PrintLn(env, ToString(env, obj))`: the argument is
evaluated first. -/
def PrintLnToString (env : JNI) (obj : jobject) (p : Proc) : Proc :=
  let r := ToString env obj p
  PrintLn env r.1 r.2

/-! ## `FindClass.cpp`: `main` -/

/-- What a run of `main` leaves behind: the log, and the exit status when
`main` returned. `status = none` is abnormal termination: the process
faulted and `main` never returned. -/
structure Run where
  log : Log
  status : Option Int
  deriving DecidableEq, Repr

/-- The `vm_args` that `main` builds: version `JNI_VERSION_1_6`, the one
class-path option, `ignoreUnrecognized = false`. -/
def vm_args : JavaVMInitArgs :=
  { version := JNI_VERSION_1_6,
    options := ["-Djava.class.path=target/indy-obfuscator-1.0-SNAPSHOT.obf.jar"],
    ignoreUnrecognized := false }

/-- The function `main(argc, argv)` of `FindClass.cpp`. `fmtPtr` is the C
library's rendering of `%p`.

The locals `jvm` and `env` are declared without a value and are set only by
a `JNI_CreateJavaVM` that succeeds (returns `JNI_OK`). The source discards
the value `JNI_CreateJavaVM` returns and goes on to `env->FindClass(argv[1])`
in either case. After a failed creation that call loads through a pointer
that holds no interface: the process faults there, before anything reaches
the interface, so the run ends with the log it has and no exit status. The
second `if` below is this behaviour of the call through `env`; it is not a
test the source makes.

The result of `DestroyJavaVM` is discarded, as in the source. Heap
allocation of the option array is not modelled. -/
def main (env : JNI) (fmtPtr : Ptr → String) (argc : Int) (argv : Nat → String) : Run :=
  if argc ≠ 2 then
    { log := [Event.printf ("usage: " ++ argv 0 ++ " CLASS_NAME\n")],
      status := some EXIT_FAILURE }
  else
    let created := env.JNI_CreateJavaVM [] vm_args
    let log1 := [Event.JNI_CreateJavaVM vm_args created]
    if created ≠ JNI_OK then
      { log := log1, status := none }
    else
      let clazz := env.FindClass log1 (argv 1)
      let log2 := log1 ++ [Event.FindClass (argv 1) clazz]
      let log3 := log2 ++ [Event.printf (fmtPtr clazz ++ "\n")]
      let destroyed := env.DestroyJavaVM log3
      { log := log3 ++ [Event.DestroyJavaVM destroyed], status := some EXIT_SUCCESS }

/-! ## Observations on logs -/

/-- Is the event a call across the JNI boundary (anything but `printf`)? -/
def Event.isBoundary : Event → Bool
  | Event.printf _ => false
  | _ => true

def Event.isFindClass : Event → Bool
  | Event.FindClass _ _ => true
  | _ => false

def Event.isNewGlobalRef : Event → Bool
  | Event.NewGlobalRef _ _ => true
  | _ => false

def Event.isGetMethodID : Event → Bool
  | Event.GetMethodID _ _ _ _ => true
  | _ => false

def Event.isGetStaticFieldID : Event → Bool
  | Event.GetStaticFieldID _ _ _ _ => true
  | _ => false

def Event.isGetStaticObjectField : Event → Bool
  | Event.GetStaticObjectField _ _ _ => true
  | _ => false

def Event.isCallObjectMethod : Event → Bool
  | Event.CallObjectMethod _ _ _ _ => true
  | _ => false

def Event.isCallVoidMethod : Event → Bool
  | Event.CallVoidMethod _ _ _ => true
  | _ => false

def Event.isCreateJavaVM : Event → Bool
  | Event.JNI_CreateJavaVM _ _ => true
  | _ => false

def Event.isDestroyJavaVM : Event → Bool
  | Event.DestroyJavaVM _ => true
  | _ => false

/-- A name-based lookup: `FindClass`, `GetMethodID` or `GetStaticFieldID`. -/
def Event.isLookup (e : Event) : Bool :=
  e.isFindClass || e.isGetMethodID || e.isGetStaticFieldID

/-- A `GetMethodID` or `GetStaticFieldID` call that returned a non-null
identifier. -/
def Event.isResolvedID : Event → Bool
  | Event.GetMethodID _ _ _ ret => ret ≠ NULL
  | Event.GetStaticFieldID _ _ _ ret => ret ≠ NULL
  | _ => false

/-- The boundary calls of a log, in order. -/
def boundary (log : Log) : Log := log.filter Event.isBoundary

/-! ## Drivers: repeated calls through one slot -/

/-- The slot after `n` successive executions of one `CacheGlobalClassRef`
site. -/
def callsGlobalClassRef (env : JNI) (className : String) (n : Nat)
    (s : jclass × Log) : jclass × Log :=
  (CacheGlobalClassRef env className)^[n] s

/-- Successive executions of one `CacheMethodID` site; the list gives the
value of the `class` argument at each execution. -/
def callsMethodID (env : JNI) (methodName methodSig : String) (classes : List jclass)
    (s : jmethodID × Log) : jmethodID × Log :=
  classes.foldl (fun st c => CacheMethodID env c methodName methodSig st) s

/-- Successive executions of one `CacheStaticFieldID` site; the list gives
the value of the `class` argument at each execution. -/
def callsStaticFieldID (env : JNI) (fieldName fieldSig : String) (classes : List jclass)
    (s : jfieldID × Log) : jfieldID × Log :=
  classes.foldl (fun st c => CacheStaticFieldID env c fieldName fieldSig st) s

/-- The process after `n` successive executions of
`PrintLn(env, ToString(env, obj))`. -/
def callsPrintLnToString (env : JNI) (obj : jobject) (n : Nat) (p : Proc) : Proc :=
  (PrintLnToString env obj)^[n] p

/-! ## The answers of the interface during a first execution -/

/-- The values the interface returns, in order, to the eleven calls that
return one during an execution of `PrintLn(env, ToString(env, obj))` that
starts with all six slots empty. The fields `Object` .. `PrintLn` are the
answers that end up in the slots of the same name. -/
structure Answers where
  findObject : jclass
  Object : jclass
  ToString : jmethodID
  str : jstring
  findSystem : jclass
  System : jclass
  Out : jfieldID
  out : jobject
  findPrintStream : jclass
  PrintStream : jclass
  PrintLn : jmethodID
  deriving DecidableEq, Repr

/-- The twelve boundary calls of such an execution, with the answers `a`.
Its prefix of length `i` is what has been logged when call `i` is made. -/
def firstExecution (obj : jobject) (a : Answers) : Log :=
  [Event.FindClass "java/lang/Object" a.findObject,
    Event.NewGlobalRef a.findObject a.Object,
    Event.GetMethodID a.Object "toString" "()Ljava/lang/String;" a.ToString,
    Event.CallObjectMethod obj a.ToString [] a.str,
    Event.FindClass "java/lang/System" a.findSystem,
    Event.NewGlobalRef a.findSystem a.System,
    Event.GetStaticFieldID a.System "out" "Ljava/io/PrintStream;" a.Out,
    Event.GetStaticObjectField a.System a.Out a.out,
    Event.FindClass "java/io/PrintStream" a.findPrintStream,
    Event.NewGlobalRef a.findPrintStream a.PrintStream,
    Event.GetMethodID a.PrintStream "println" "(Ljava/lang/String;)V" a.PrintLn,
    Event.CallVoidMethod a.out a.PrintLn [a.str]]

/-- The answers the resolving runtime gives for the object `7`. -/
def resolvedAnswers : Answers :=
  { findObject := 16, Object := 17, ToString := 19, str := 1007,
    findSystem := 32, System := 33, Out := 36, out := 69,
    findPrintStream := 48, PrintStream := 49, PrintLn := 51 }

/-! ## Test doubles of the embedding interface -/

/-- A runtime on which everything resolves: class lookups return a fresh
local reference per name, promotion returns a different (global) handle,
member lookups return identifiers derived from the class. It ignores the
history. -/
def resolvingJNI : JNI where
  JNI_CreateJavaVM _ _ := JNI_OK
  DestroyJavaVM _ := JNI_OK
  FindClass _ name :=
    if name = "java/lang/Object" then 16
    else if name = "java/lang/System" then 32
    else if name = "java/io/PrintStream" then 48
    else if name = "java/lang/String" then 64
    else NULL
  NewGlobalRef _ obj := if obj = NULL then NULL else obj + 1
  GetMethodID _ clazz _ _ := if clazz = NULL then NULL else clazz + 2
  GetStaticFieldID _ clazz _ _ := if clazz = NULL then NULL else clazz + 3
  GetStaticObjectField _ clazz fieldID := clazz + fieldID
  CallObjectMethod _ obj _ _ := obj + 1000

/-- A runtime on which nothing resolves and no VM can be created: every
lookup and every call returns `NULL`, `JNI_CreateJavaVM` returns `JNI_ERR`. -/
def failingJNI : JNI where
  JNI_CreateJavaVM _ _ := JNI_ERR
  DestroyJavaVM _ := JNI_ERR
  FindClass _ _ := NULL
  NewGlobalRef _ _ := NULL
  GetMethodID _ _ _ _ := NULL
  GetStaticFieldID _ _ _ _ := NULL
  GetStaticObjectField _ _ _ := NULL
  CallObjectMethod _ _ _ _ := NULL

/-- A runtime whose answers depend on the history: `FindClass` fails until
two `FindClass` calls are in the log and succeeds from the third on;
`GetMethodID` and `GetStaticFieldID` fail until one such call is in the log. -/
def flakyJNI : JNI where
  JNI_CreateJavaVM _ _ := JNI_OK
  DestroyJavaVM _ := JNI_OK
  FindClass log _ := if log.countP Event.isFindClass < 2 then NULL else 16
  NewGlobalRef _ obj := if obj = NULL then NULL else obj + 1
  GetMethodID log clazz _ _ :=
    if log.countP Event.isGetMethodID < 1 then NULL else clazz + 2
  GetStaticFieldID log clazz _ _ :=
    if log.countP Event.isGetStaticFieldID < 1 then NULL else clazz + 3
  GetStaticObjectField _ clazz fieldID := clazz + fieldID
  CallObjectMethod _ obj _ _ := obj + 1000

/-- A `%p` rendering in the style of glibc: `(nil)` for the null pointer,
`0x` and the hexadecimal digits of the address otherwise. -/
def fmtPtr (p : Ptr) : String :=
  if p = NULL then "(nil)" else "0x" ++ String.mk (Nat.toDigits 16 p)

/-- The argument vector of `FindClass java/lang/String`. -/
def argvString (i : Nat) : String :=
  ["FindClass", "java/lang/String"].getD i ""

/-- The argument vector of `FindClass does/not/Exist`. -/
def argvMissing (i : Nat) : String :=
  ["FindClass", "does/not/Exist"].getD i ""

/-- The argument vector of `FindClass` run without arguments. -/
def argvNone (i : Nat) : String :=
  ["FindClass"].getD i ""

/-- The argument vector of `FindClass java/lang/String java/lang/Object`. -/
def argvTwo (i : Nat) : String :=
  ["FindClass", "java/lang/String", "java/lang/Object"].getD i ""

/-! ## Lemmas on the caching macros -/

theorem CacheGlobalClassRef_filled (env : JNI) (className : String) (s : jclass × Log)
    (h : s.1 ≠ NULL) : CacheGlobalClassRef env className s = s := by
  simp [CacheGlobalClassRef, h]

theorem CacheGlobalClassRef_empty (env : JNI) (className : String) (log : Log) :
    CacheGlobalClassRef env className (NULL, log) =
      (env.NewGlobalRef (log ++ [Event.FindClass className (env.FindClass log className)])
          (env.FindClass log className),
        log ++ [Event.FindClass className (env.FindClass log className),
          Event.NewGlobalRef (env.FindClass log className)
            (env.NewGlobalRef (log ++ [Event.FindClass className (env.FindClass log className)])
              (env.FindClass log className))]) := by
  simp [CacheGlobalClassRef]

theorem CacheMethodID_filled (env : JNI) (clazz : jclass) (methodName methodSig : String)
    (s : jmethodID × Log) (h : s.1 ≠ NULL) :
    CacheMethodID env clazz methodName methodSig s = s := by
  simp [CacheMethodID, h]

theorem CacheMethodID_empty (env : JNI) (clazz : jclass) (methodName methodSig : String)
    (log : Log) :
    CacheMethodID env clazz methodName methodSig (NULL, log) =
      (env.GetMethodID log clazz methodName methodSig,
        log ++ [Event.GetMethodID clazz methodName methodSig
          (env.GetMethodID log clazz methodName methodSig)]) := by
  simp [CacheMethodID]

theorem CacheStaticFieldID_filled (env : JNI) (clazz : jclass) (fieldName fieldSig : String)
    (s : jfieldID × Log) (h : s.1 ≠ NULL) :
    CacheStaticFieldID env clazz fieldName fieldSig s = s := by
  simp [CacheStaticFieldID, h]

theorem CacheStaticFieldID_empty (env : JNI) (clazz : jclass) (fieldName fieldSig : String)
    (log : Log) :
    CacheStaticFieldID env clazz fieldName fieldSig (NULL, log) =
      (env.GetStaticFieldID log clazz fieldName fieldSig,
        log ++ [Event.GetStaticFieldID clazz fieldName fieldSig
          (env.GetStaticFieldID log clazz fieldName fieldSig)]) := by
  simp [CacheStaticFieldID]

theorem callsGlobalClassRef_succ (env : JNI) (className : String) (n : Nat)
    (s : jclass × Log) :
    callsGlobalClassRef env className (n + 1) s =
      CacheGlobalClassRef env className (callsGlobalClassRef env className n s) := by
  simp only [callsGlobalClassRef, Function.iterate_succ_apply']

theorem callsGlobalClassRef_filled (env : JNI) (className : String) (n : Nat)
    (s : jclass × Log) (h : s.1 ≠ NULL) : callsGlobalClassRef env className n s = s := by
  induction n with
  | zero => rfl
  | succ n ih => rw [callsGlobalClassRef_succ, ih, CacheGlobalClassRef_filled env className s h]

theorem callsGlobalClassRef_succ_front (env : JNI) (className : String) (n : Nat)
    (s : jclass × Log) :
    callsGlobalClassRef env className (n + 1) s =
      callsGlobalClassRef env className n (CacheGlobalClassRef env className s) := by
  simp only [callsGlobalClassRef, Function.iterate_succ_apply]

/-! ## C1: a class slot resolves once -/

/-- C1. For every class name, every prior history `log` and every `n ≥ 1`
calls through one `CacheGlobalClassRef` slot that starts `NULL`: when the
reference the first call's `NewGlobalRef` returns for the first call's
`FindClass` result is non-null (whatever `FindClass` returned), the `n` calls
together add exactly the two events `FindClass`, `NewGlobalRef` to the log
(so exactly one of each occurs), and after each of the calls `1..n` the slot
holds the reference the first call stored. -/
theorem cacheGlobalClassRef_resolves_once (env : JNI) (className : String) (log : Log)
    (n : Nat) (hn : 1 ≤ n)
    (hglobal : env.NewGlobalRef (log ++ [Event.FindClass className (env.FindClass log className)])
        (env.FindClass log className) ≠ NULL) :
    (callsGlobalClassRef env className n (NULL, log)).2 =
        log ++ [Event.FindClass className (env.FindClass log className),
          Event.NewGlobalRef (env.FindClass log className)
            (env.NewGlobalRef
              (log ++ [Event.FindClass className (env.FindClass log className)])
              (env.FindClass log className))] ∧
      (callsGlobalClassRef env className n (NULL, log)).2.countP Event.isFindClass =
        log.countP Event.isFindClass + 1 ∧
      (callsGlobalClassRef env className n (NULL, log)).2.countP Event.isNewGlobalRef =
        log.countP Event.isNewGlobalRef + 1 ∧
      (callsGlobalClassRef env className 1 (NULL, log)).1 =
        env.NewGlobalRef (log ++ [Event.FindClass className (env.FindClass log className)])
          (env.FindClass log className) ∧
      ∀ k, 1 ≤ k → k ≤ n →
        (callsGlobalClassRef env className k (NULL, log)).1 =
          (callsGlobalClassRef env className 1 (NULL, log)).1 := by
  have key : ∀ k, 1 ≤ k → callsGlobalClassRef env className k (NULL, log) =
      CacheGlobalClassRef env className (NULL, log) := by
    intro k hk
    obtain ⟨j, rfl⟩ : ∃ j, k = j + 1 := ⟨k - 1, by omega⟩
    rw [callsGlobalClassRef_succ_front]
    apply callsGlobalClassRef_filled
    rw [CacheGlobalClassRef_empty]
    exact hglobal
  refine ⟨?_, ?_, ?_, ?_, ?_⟩
  · rw [key n hn, CacheGlobalClassRef_empty]
  · rw [key n hn, CacheGlobalClassRef_empty]
    simp [List.countP_append, List.countP_cons, Event.isFindClass]
  · rw [key n hn, CacheGlobalClassRef_empty]
    simp [List.countP_append, List.countP_cons, Event.isNewGlobalRef]
  · rw [key 1 le_rfl, CacheGlobalClassRef_empty]
  · intro k hk _
    rw [key k hk, key 1 le_rfl]

/-- C1 at a concrete input: three calls for `java/lang/Object` on the
resolving runtime, after an empty history. -/
theorem cacheGlobalClassRef_resolves_once_witness :
    (callsGlobalClassRef resolvingJNI "java/lang/Object" 3 (NULL, [])).2 =
        [Event.FindClass "java/lang/Object" 16, Event.NewGlobalRef 16 17] ∧
      (callsGlobalClassRef resolvingJNI "java/lang/Object" 3 (NULL, [])).2.countP
          Event.isFindClass = 1 ∧
      (callsGlobalClassRef resolvingJNI "java/lang/Object" 3 (NULL, [])).1 = 17 := by
  have h := cacheGlobalClassRef_resolves_once resolvingJNI "java/lang/Object" [] 3
    (by decide) (by decide)
  refine ⟨h.1, h.2.1, ?_⟩
  rw [h.2.2.2.2 3 (by decide) le_rfl, h.2.2.2.1]
  decide

/-! ## C2: a failed class lookup is retried -/

/-- C2. Let each of the first `k` calls through a `CacheGlobalClassRef`
slot (initially `NULL`) fail: its `FindClass` returns `NULL` and
`NewGlobalRef`, given that `NULL`, returns `NULL`, so the value stored is
`NULL`. Then the slot is `NULL` after each of those calls, the `k` calls
perform exactly `k` `FindClass` lookups, and the next call through the slot
performs the `FindClass` lookup again (one more `FindClass` event, first in
what that call appends), whatever it returns. -/
theorem cacheGlobalClassRef_retries_after_failure (env : JNI) (className : String)
    (log : Log) (k : Nat)
    (hfail : ∀ i, i < k →
      env.FindClass (callsGlobalClassRef env className i (NULL, log)).2 className = NULL ∧
      env.NewGlobalRef
        ((callsGlobalClassRef env className i (NULL, log)).2 ++
          [Event.FindClass className NULL]) NULL = NULL) :
    (∀ i, i ≤ k → (callsGlobalClassRef env className i (NULL, log)).1 = NULL) ∧
      (callsGlobalClassRef env className k (NULL, log)).2.countP Event.isFindClass =
        log.countP Event.isFindClass + k ∧
      (callsGlobalClassRef env className (k + 1) (NULL, log)).2.countP Event.isFindClass =
        log.countP Event.isFindClass + k + 1 ∧
      (callsGlobalClassRef env className (k + 1) (NULL, log)).2 =
        (callsGlobalClassRef env className k (NULL, log)).2 ++
          [Event.FindClass className
              (env.FindClass (callsGlobalClassRef env className k (NULL, log)).2 className),
            Event.NewGlobalRef
              (env.FindClass (callsGlobalClassRef env className k (NULL, log)).2 className)
              (callsGlobalClassRef env className (k + 1) (NULL, log)).1] := by
  have key : ∀ i, i ≤ k →
      (callsGlobalClassRef env className i (NULL, log)).1 = NULL ∧
      (callsGlobalClassRef env className i (NULL, log)).2.countP Event.isFindClass =
        log.countP Event.isFindClass + i := by
    intro i
    induction i with
    | zero => intro _; exact ⟨rfl, rfl⟩
    | succ i ih =>
      intro hi
      obtain ⟨h1, h2⟩ := ih (by omega)
      obtain ⟨hf, hp⟩ := hfail i (by omega)
      rw [callsGlobalClassRef_succ]
      generalize callsGlobalClassRef env className i (NULL, log) = s at h1 h2 hf hp
      obtain ⟨v, l⟩ := s
      simp only at h1 h2 hf hp
      subst h1
      rw [CacheGlobalClassRef_empty, hf]
      refine ⟨hp, ?_⟩
      simp [List.countP_append, List.countP_cons, Event.isFindClass, h2]
      omega
  obtain ⟨h1, h2⟩ := key k le_rfl
  have step : callsGlobalClassRef env className (k + 1) (NULL, log) =
      CacheGlobalClassRef env className
        (NULL, (callsGlobalClassRef env className k (NULL, log)).2) := by
    rw [callsGlobalClassRef_succ]
    congr 1
    exact Prod.ext h1 rfl
  refine ⟨fun i hi => (key i hi).1, h2, ?_, ?_⟩
  · rw [step, CacheGlobalClassRef_empty]
    simp [List.countP_append, List.countP_cons, Event.isFindClass, h2]
  · rw [step, CacheGlobalClassRef_empty]

/-- C2 at a concrete input: on the flaky runtime the first two lookups of
`java/lang/Object` fail; the slot stays `NULL`, two `FindClass` calls have
been made after two calls and three after three (the third succeeds). -/
theorem cacheGlobalClassRef_retries_after_failure_witness :
    (∀ i, i < 2 →
        flakyJNI.FindClass
          (callsGlobalClassRef flakyJNI "java/lang/Object" i (NULL, [])).2
          "java/lang/Object" = NULL ∧
        flakyJNI.NewGlobalRef
          ((callsGlobalClassRef flakyJNI "java/lang/Object" i (NULL, [])).2 ++
            [Event.FindClass "java/lang/Object" NULL]) NULL = NULL) ∧
      (callsGlobalClassRef flakyJNI "java/lang/Object" 2 (NULL, [])).1 = NULL ∧
      (callsGlobalClassRef flakyJNI "java/lang/Object" 2 (NULL, [])).2.countP
        Event.isFindClass = 2 ∧
      (callsGlobalClassRef flakyJNI "java/lang/Object" 3 (NULL, [])).2.countP
        Event.isFindClass = 3 ∧
      (callsGlobalClassRef flakyJNI "java/lang/Object" 3 (NULL, [])).1 = 17 := by
  have hf : ∀ i, i < 2 →
      flakyJNI.FindClass
        (callsGlobalClassRef flakyJNI "java/lang/Object" i (NULL, [])).2
        "java/lang/Object" = NULL ∧
      flakyJNI.NewGlobalRef
        ((callsGlobalClassRef flakyJNI "java/lang/Object" i (NULL, [])).2 ++
          [Event.FindClass "java/lang/Object" NULL]) NULL = NULL := by
    intro i hi
    interval_cases i <;> decide
  have h := cacheGlobalClassRef_retries_after_failure flakyJNI "java/lang/Object" [] 2 hf
  exact ⟨hf, h.1 2 le_rfl, h.2.1, h.2.2.1, by decide⟩

/-! ## C6: only the promoted reference is stored -/

/-- C6. One execution of a `CacheGlobalClassRef` site either writes nothing
(the slot was non-null: slot and log are unchanged) or, the slot being
`NULL`, appends `FindClass(className)` and then `NewGlobalRef` of the
reference `FindClass` returned, and the slot then holds what that
`NewGlobalRef` call returned. The value stored is always the promoted
reference, never the `FindClass` result itself. -/
theorem cacheGlobalClassRef_stores_promoted (env : JNI) (className : String)
    (slot : jclass) (log : Log) :
    (slot ≠ NULL ∧ CacheGlobalClassRef env className (slot, log) = (slot, log)) ∨
      (slot = NULL ∧
        (CacheGlobalClassRef env className (slot, log)).2 =
          log ++ [Event.FindClass className (env.FindClass log className),
            Event.NewGlobalRef (env.FindClass log className)
              (CacheGlobalClassRef env className (slot, log)).1] ∧
        (CacheGlobalClassRef env className (slot, log)).1 =
          env.NewGlobalRef (log ++ [Event.FindClass className (env.FindClass log className)])
            (env.FindClass log className)) := by
  by_cases h : slot = NULL
  · right
    subst h
    rw [CacheGlobalClassRef_empty]
    exact ⟨rfl, rfl, rfl⟩
  · left
    exact ⟨h, CacheGlobalClassRef_filled env className (slot, log) h⟩

/-! ## C7: identifier slots resolve at most once -/

theorem callsMethodID_filled (env : JNI) (methodName methodSig : String)
    (classes : List jclass) (s : jmethodID × Log) (h : s.1 ≠ NULL) :
    callsMethodID env methodName methodSig classes s = s := by
  induction classes with
  | nil => rfl
  | cons c cs ih =>
    simp only [callsMethodID, List.foldl_cons] at ih ⊢
    rw [CacheMethodID_filled env c methodName methodSig s h]
    exact ih

theorem callsStaticFieldID_filled (env : JNI) (fieldName fieldSig : String)
    (classes : List jclass) (s : jfieldID × Log) (h : s.1 ≠ NULL) :
    callsStaticFieldID env fieldName fieldSig classes s = s := by
  induction classes with
  | nil => rfl
  | cons c cs ih =>
    simp only [callsStaticFieldID, List.foldl_cons] at ih ⊢
    rw [CacheStaticFieldID_filled env c fieldName fieldSig s h]
    exact ih

theorem callsMethodID_log (env : JNI) (methodName methodSig : String)
    (classes : List jclass) (slot : jmethodID) (log : Log) :
    ∃ added : Log,
      (callsMethodID env methodName methodSig classes (slot, log)).2 = log ++ added ∧
      added.countP Event.isResolvedID ≤ 1 ∧
      ∀ e ∈ added, ∃ c r, e = Event.GetMethodID c methodName methodSig r ∧
        (r ≠ NULL → (callsMethodID env methodName methodSig classes (slot, log)).1 = r) := by
  by_cases hs : slot = NULL
  · subst hs
    induction classes generalizing log with
    | nil => exact ⟨[], by simp [callsMethodID], by simp, by simp⟩
    | cons c cs ih =>
      have hstep : callsMethodID env methodName methodSig (c :: cs) (NULL, log) =
          callsMethodID env methodName methodSig cs
            (env.GetMethodID log c methodName methodSig,
              log ++ [Event.GetMethodID c methodName methodSig
                (env.GetMethodID log c methodName methodSig)]) := by
        simp only [callsMethodID, List.foldl_cons]
        rw [CacheMethodID_empty]
      rw [hstep]
      by_cases hr : env.GetMethodID log c methodName methodSig = NULL
      · rw [hr]
        obtain ⟨added, h1, h2, h3⟩ :=
          ih (log ++ [Event.GetMethodID c methodName methodSig NULL])
        refine ⟨Event.GetMethodID c methodName methodSig NULL :: added, ?_, ?_, ?_⟩
        · rw [h1]; simp
        · simpa [List.countP_cons, Event.isResolvedID] using h2
        · intro e he
          rcases List.mem_cons.mp he with rfl | he
          · exact ⟨c, NULL, rfl, fun h => absurd rfl h⟩
          · exact h3 e he
      · rw [callsMethodID_filled env methodName methodSig cs _ hr]
        refine ⟨[Event.GetMethodID c methodName methodSig
          (env.GetMethodID log c methodName methodSig)], rfl, ?_, ?_⟩
        · simp [List.countP_cons, Event.isResolvedID, hr]
        · intro e he
          rw [List.mem_singleton] at he
          exact ⟨c, _, he, fun _ => rfl⟩
  · rw [callsMethodID_filled env methodName methodSig classes (slot, log) hs]
    exact ⟨[], by simp, by simp, by simp⟩

theorem callsStaticFieldID_log (env : JNI) (fieldName fieldSig : String)
    (classes : List jclass) (slot : jfieldID) (log : Log) :
    ∃ added : Log,
      (callsStaticFieldID env fieldName fieldSig classes (slot, log)).2 = log ++ added ∧
      added.countP Event.isResolvedID ≤ 1 ∧
      ∀ e ∈ added, ∃ c r, e = Event.GetStaticFieldID c fieldName fieldSig r ∧
        (r ≠ NULL → (callsStaticFieldID env fieldName fieldSig classes (slot, log)).1 = r) := by
  by_cases hs : slot = NULL
  · subst hs
    induction classes generalizing log with
    | nil => exact ⟨[], by simp [callsStaticFieldID], by simp, by simp⟩
    | cons c cs ih =>
      have hstep : callsStaticFieldID env fieldName fieldSig (c :: cs) (NULL, log) =
          callsStaticFieldID env fieldName fieldSig cs
            (env.GetStaticFieldID log c fieldName fieldSig,
              log ++ [Event.GetStaticFieldID c fieldName fieldSig
                (env.GetStaticFieldID log c fieldName fieldSig)]) := by
        simp only [callsStaticFieldID, List.foldl_cons]
        rw [CacheStaticFieldID_empty]
      rw [hstep]
      by_cases hr : env.GetStaticFieldID log c fieldName fieldSig = NULL
      · rw [hr]
        obtain ⟨added, h1, h2, h3⟩ :=
          ih (log ++ [Event.GetStaticFieldID c fieldName fieldSig NULL])
        refine ⟨Event.GetStaticFieldID c fieldName fieldSig NULL :: added, ?_, ?_, ?_⟩
        · rw [h1]; simp
        · simpa [List.countP_cons, Event.isResolvedID] using h2
        · intro e he
          rcases List.mem_cons.mp he with rfl | he
          · exact ⟨c, NULL, rfl, fun h => absurd rfl h⟩
          · exact h3 e he
      · rw [callsStaticFieldID_filled env fieldName fieldSig cs _ hr]
        refine ⟨[Event.GetStaticFieldID c fieldName fieldSig
          (env.GetStaticFieldID log c fieldName fieldSig)], rfl, ?_, ?_⟩
        · simp [List.countP_cons, Event.isResolvedID, hr]
        · intro e he
          rw [List.mem_singleton] at he
          exact ⟨c, _, he, fun _ => rfl⟩
  · rw [callsStaticFieldID_filled env fieldName fieldSig classes (slot, log) hs]
    exact ⟨[], by simp, by simp, by simp⟩

/-- C7. For one `CacheMethodID` site and one `CacheStaticFieldID` site, any
starting slot value, any history and any sequence of calls (`classes` gives
the `class` argument of each): (1) a call through a non-null slot adds
nothing to the log and leaves the slot as it is; (2) the calls add only
`GetMethodID` (respectively `GetStaticFieldID`) events for the site's name
and signature, at most one of them returned non-null, and one that did
returned the value the slot holds at the end; (3) when the slot is non-null
at the end, any further calls `more` change neither the slot nor the log. -/
theorem cacheID_resolves_at_most_once (env : JNI) (name sig : String)
    (classes more : List jclass) (clazz : jclass) (slot : Ptr) (log : Log) :
    (slot ≠ NULL →
        CacheMethodID env clazz name sig (slot, log) = (slot, log) ∧
        CacheStaticFieldID env clazz name sig (slot, log) = (slot, log)) ∧
      (∃ added : Log,
        (callsMethodID env name sig classes (slot, log)).2 = log ++ added ∧
        added.countP Event.isResolvedID ≤ 1 ∧
        ∀ e ∈ added, ∃ c r, e = Event.GetMethodID c name sig r ∧
          (r ≠ NULL → (callsMethodID env name sig classes (slot, log)).1 = r)) ∧
      (∃ added : Log,
        (callsStaticFieldID env name sig classes (slot, log)).2 = log ++ added ∧
        added.countP Event.isResolvedID ≤ 1 ∧
        ∀ e ∈ added, ∃ c r, e = Event.GetStaticFieldID c name sig r ∧
          (r ≠ NULL → (callsStaticFieldID env name sig classes (slot, log)).1 = r)) ∧
      ((callsMethodID env name sig classes (slot, log)).1 ≠ NULL →
        callsMethodID env name sig more (callsMethodID env name sig classes (slot, log)) =
          callsMethodID env name sig classes (slot, log)) ∧
      ((callsStaticFieldID env name sig classes (slot, log)).1 ≠ NULL →
        callsStaticFieldID env name sig more
            (callsStaticFieldID env name sig classes (slot, log)) =
          callsStaticFieldID env name sig classes (slot, log)) :=
  ⟨fun h => ⟨CacheMethodID_filled env clazz name sig (slot, log) h,
      CacheStaticFieldID_filled env clazz name sig (slot, log) h⟩,
    callsMethodID_log env name sig classes slot log,
    callsStaticFieldID_log env name sig classes slot log,
    callsMethodID_filled env name sig more _,
    callsStaticFieldID_filled env name sig more _⟩

/-- C7 at a concrete input: on the flaky runtime the first `GetMethodID`
(and the first `GetStaticFieldID`) fails and the second succeeds; two more
calls through the filled slot change nothing. -/
theorem cacheID_resolves_at_most_once_witness :
    callsMethodID flakyJNI "out" "Ljava/io/PrintStream;" [17, 17, 17] (NULL, []) =
        (19, [Event.GetMethodID 17 "out" "Ljava/io/PrintStream;" NULL,
          Event.GetMethodID 17 "out" "Ljava/io/PrintStream;" 19]) ∧
      callsStaticFieldID flakyJNI "out" "Ljava/io/PrintStream;" [17, 17, 17] (NULL, []) =
        (20, [Event.GetStaticFieldID 17 "out" "Ljava/io/PrintStream;" NULL,
          Event.GetStaticFieldID 17 "out" "Ljava/io/PrintStream;" 20]) ∧
      callsMethodID flakyJNI "out" "Ljava/io/PrintStream;" [17, 5]
          (callsMethodID flakyJNI "out" "Ljava/io/PrintStream;" [17, 17, 17] (NULL, [])) =
        callsMethodID flakyJNI "out" "Ljava/io/PrintStream;" [17, 17, 17] (NULL, []) ∧
      callsStaticFieldID flakyJNI "out" "Ljava/io/PrintStream;" [17, 5]
          (callsStaticFieldID flakyJNI "out" "Ljava/io/PrintStream;" [17, 17, 17]
            (NULL, [])) =
        callsStaticFieldID flakyJNI "out" "Ljava/io/PrintStream;" [17, 17, 17] (NULL, []) :=
  ⟨by decide, by decide,
    (cacheID_resolves_at_most_once flakyJNI "out" "Ljava/io/PrintStream;" [17, 17, 17]
      [17, 5] 17 NULL []).2.2.2.1 (by decide),
    (cacheID_resolves_at_most_once flakyJNI "out" "Ljava/io/PrintStream;" [17, 17, 17]
      [17, 5] 17 NULL []).2.2.2.2 (by decide)⟩

/-! ## Lemmas on `ToString` and `PrintLn` -/

theorem callsPrintLnToString_succ (env : JNI) (obj : jobject) (n : Nat) (p : Proc) :
    callsPrintLnToString env obj (n + 1) p =
      PrintLnToString env obj (callsPrintLnToString env obj n p) := by
  simp only [callsPrintLnToString, Function.iterate_succ_apply']

theorem PrintLnToString_resolved (env : JNI) (obj : jobject) (p : Proc)
    (h : p.allResolved) :
    PrintLnToString env obj p =
      { p with
        log := p.log ++
          [Event.CallObjectMethod obj p.ToString [] (env.CallObjectMethod p.log obj p.ToString []),
            Event.GetStaticObjectField p.System p.Out
              (env.GetStaticObjectField
                (p.log ++ [Event.CallObjectMethod obj p.ToString []
                  (env.CallObjectMethod p.log obj p.ToString [])]) p.System p.Out),
            Event.CallVoidMethod
              (env.GetStaticObjectField
                (p.log ++ [Event.CallObjectMethod obj p.ToString []
                  (env.CallObjectMethod p.log obj p.ToString [])]) p.System p.Out)
              p.PrintLn [env.CallObjectMethod p.log obj p.ToString []]] } := by
  obtain ⟨h1, h2, h3, h4, h5, h6⟩ := h
  simp [PrintLnToString, ToString, PrintLn, CacheGlobalClassRef, CacheMethodID,
    CacheStaticFieldID, h1, h2, h3, h4, h5, h6]

theorem PrintLnToString_resolved_slots (env : JNI) (obj : jobject) (p : Proc)
    (h : p.allResolved) :
    (PrintLnToString env obj p).allResolved ∧
      PrintLnToString env obj p = { p with log := (PrintLnToString env obj p).log } := by
  rw [PrintLnToString_resolved env obj p h]
  exact ⟨h, rfl⟩

theorem CacheGlobalClassRef_log (env : JNI) (className : String) (slot : jclass)
    (log : Log) :
    ∃ c, (CacheGlobalClassRef env className (slot, log)).2 =
      log ++ (if slot = NULL then
        [Event.FindClass className c,
          Event.NewGlobalRef c (CacheGlobalClassRef env className (slot, log)).1]
        else []) := by
  by_cases h : slot = NULL
  · exact ⟨env.FindClass log className, by simp [CacheGlobalClassRef, h]⟩
  · exact ⟨NULL, by simp [CacheGlobalClassRef, h]⟩

theorem CacheMethodID_log (env : JNI) (clazz : jclass) (methodName methodSig : String)
    (slot : jmethodID) (log : Log) :
    (CacheMethodID env clazz methodName methodSig (slot, log)).2 =
      log ++ (if slot = NULL then
        [Event.GetMethodID clazz methodName methodSig
          (CacheMethodID env clazz methodName methodSig (slot, log)).1]
        else []) := by
  by_cases h : slot = NULL <;> simp [CacheMethodID, h]

theorem CacheStaticFieldID_log (env : JNI) (clazz : jclass) (fieldName fieldSig : String)
    (slot : jfieldID) (log : Log) :
    (CacheStaticFieldID env clazz fieldName fieldSig (slot, log)).2 =
      log ++ (if slot = NULL then
        [Event.GetStaticFieldID clazz fieldName fieldSig
          (CacheStaticFieldID env clazz fieldName fieldSig (slot, log)).1]
        else []) := by
  by_cases h : slot = NULL <;> simp [CacheStaticFieldID, h]

/-- The log of one `ToString` call, for any state of the slots: the lookups
that fill empty slots, then the one `CallObjectMethod`. The events carry the
slot values as they are after the caching blocks. -/
theorem ToString_log (env : JNI) (obj : jobject) (p : Proc) :
    ∃ c, (ToString env obj p).2.log =
      p.log ++
        ((if p.Object = NULL then
            [Event.FindClass "java/lang/Object" c,
              Event.NewGlobalRef c (ToString env obj p).2.Object]
          else []) ++
        (if p.ToString = NULL then
            [Event.GetMethodID (ToString env obj p).2.Object "toString"
              "()Ljava/lang/String;" (ToString env obj p).2.ToString]
          else []) ++
        [Event.CallObjectMethod obj (ToString env obj p).2.ToString []
          (ToString env obj p).1]) := by
  obtain ⟨c, hc⟩ := CacheGlobalClassRef_log env "java/lang/Object" p.Object p.log
  refine ⟨c, ?_⟩
  simp only [ToString]
  rw [CacheMethodID_log, hc]
  simp only [List.append_assoc]

/-- The log of one `PrintLn` call, for any state of the slots. -/
theorem PrintLn_log (env : JNI) (str : jstring) (p : Proc) :
    ∃ c1 c2 out, (PrintLn env str p).log =
      p.log ++
        ((if p.System = NULL then
            [Event.FindClass "java/lang/System" c1,
              Event.NewGlobalRef c1 (PrintLn env str p).System]
          else []) ++
        (if p.Out = NULL then
            [Event.GetStaticFieldID (PrintLn env str p).System "out"
              "Ljava/io/PrintStream;" (PrintLn env str p).Out]
          else []) ++
        [Event.GetStaticObjectField (PrintLn env str p).System (PrintLn env str p).Out out] ++
        (if p.PrintStream = NULL then
            [Event.FindClass "java/io/PrintStream" c2,
              Event.NewGlobalRef c2 (PrintLn env str p).PrintStream]
          else []) ++
        (if p.PrintLn = NULL then
            [Event.GetMethodID (PrintLn env str p).PrintStream "println"
              "(Ljava/lang/String;)V" (PrintLn env str p).PrintLn]
          else []) ++
        [Event.CallVoidMethod out (PrintLn env str p).PrintLn [str]]) := by
  simp only [PrintLn]
  obtain ⟨c1, h1⟩ := CacheGlobalClassRef_log env "java/lang/System" p.System p.log
  set sys := CacheGlobalClassRef env "java/lang/System" (p.System, p.log)
  have h2 := CacheStaticFieldID_log env sys.1 "out" "Ljava/io/PrintStream;" p.Out sys.2
  set f := CacheStaticFieldID env sys.1 "out" "Ljava/io/PrintStream;" (p.Out, sys.2)
  set out := env.GetStaticObjectField f.2 sys.1 f.1
  obtain ⟨c2, h3⟩ := CacheGlobalClassRef_log env "java/io/PrintStream" p.PrintStream
    (f.2 ++ [Event.GetStaticObjectField sys.1 f.1 out])
  set ps := CacheGlobalClassRef env "java/io/PrintStream"
    (p.PrintStream, f.2 ++ [Event.GetStaticObjectField sys.1 f.1 out])
  refine ⟨c1, c2, out, ?_⟩
  rw [CacheMethodID_log, h3, h2, h1]
  simp only [List.append_assoc]

theorem ToString_count (env : JNI) (obj : jobject) (p : Proc) :
    (ToString env obj p).2.log.countP Event.isCallObjectMethod =
      p.log.countP Event.isCallObjectMethod + 1 := by
  obtain ⟨c, h⟩ := ToString_log env obj p
  rw [h]
  by_cases h1 : p.Object = NULL <;> by_cases h2 : p.ToString = NULL <;>
    simp [List.countP_append, List.countP_cons, Event.isCallObjectMethod, h1, h2]

theorem PrintLn_count (env : JNI) (str : jstring) (p : Proc) :
    (PrintLn env str p).log.countP Event.isGetStaticObjectField =
        p.log.countP Event.isGetStaticObjectField + 1 ∧
      (PrintLn env str p).log.countP Event.isCallVoidMethod =
        p.log.countP Event.isCallVoidMethod + 1 := by
  obtain ⟨c1, c2, out, h⟩ := PrintLn_log env str p
  rw [h]
  by_cases h1 : p.System = NULL <;> by_cases h2 : p.Out = NULL <;>
    by_cases h3 : p.PrintStream = NULL <;> by_cases h4 : p.PrintLn = NULL <;>
    simp [List.countP_append, List.countP_cons, Event.isGetStaticObjectField,
      Event.isCallVoidMethod, h1, h2, h3, h4]

theorem PrintLnToString_first (env : JNI) (obj : jobject) (log : Log) (a : Answers)
    (h0 : env.FindClass log "java/lang/Object" = a.findObject)
    (h1 : env.NewGlobalRef (log ++ (firstExecution obj a).take 1) a.findObject = a.Object)
    (h2 : env.GetMethodID (log ++ (firstExecution obj a).take 2) a.Object
      "toString" "()Ljava/lang/String;" = a.ToString)
    (h3 : env.CallObjectMethod (log ++ (firstExecution obj a).take 3) obj a.ToString [] =
      a.str)
    (h4 : env.FindClass (log ++ (firstExecution obj a).take 4) "java/lang/System" =
      a.findSystem)
    (h5 : env.NewGlobalRef (log ++ (firstExecution obj a).take 5) a.findSystem = a.System)
    (h6 : env.GetStaticFieldID (log ++ (firstExecution obj a).take 6) a.System
      "out" "Ljava/io/PrintStream;" = a.Out)
    (h7 : env.GetStaticObjectField (log ++ (firstExecution obj a).take 7) a.System a.Out =
      a.out)
    (h8 : env.FindClass (log ++ (firstExecution obj a).take 8) "java/io/PrintStream" =
      a.findPrintStream)
    (h9 : env.NewGlobalRef (log ++ (firstExecution obj a).take 9) a.findPrintStream =
      a.PrintStream)
    (h10 : env.GetMethodID (log ++ (firstExecution obj a).take 10) a.PrintStream
      "println" "(Ljava/lang/String;)V" = a.PrintLn) :
    PrintLnToString env obj (Proc.start log) =
      { Object := a.Object, ToString := a.ToString, System := a.System, Out := a.Out,
        PrintStream := a.PrintStream, PrintLn := a.PrintLn,
        log := log ++ firstExecution obj a } := by
  simp only [firstExecution, List.take_succ_cons, List.take_zero] at h1 h2 h3 h4 h5 h6 h7 h8 h9 h10
  simp only [PrintLnToString, ToString, PrintLn, Proc.start, CacheGlobalClassRef_empty,
    CacheMethodID_empty, CacheStaticFieldID_empty, List.append_assoc, List.cons_append,
    List.nil_append, firstExecution, h0, h1, h2, h3, h4, h5, h6, h7, h8, h9, h10]

theorem callsPrintLnToString_succ_front (env : JNI) (obj : jobject) (n : Nat) (p : Proc) :
    callsPrintLnToString env obj (n + 1) p =
      callsPrintLnToString env obj n (PrintLnToString env obj p) := by
  simp only [callsPrintLnToString, Function.iterate_succ_apply]

theorem PrintLnToString_resolved_counts (env : JNI) (obj : jobject) (p : Proc)
    (h : p.allResolved) :
    (PrintLnToString env obj p).log.countP Event.isCallObjectMethod =
        p.log.countP Event.isCallObjectMethod + 1 ∧
      (PrintLnToString env obj p).log.countP Event.isGetStaticObjectField =
        p.log.countP Event.isGetStaticObjectField + 1 ∧
      (PrintLnToString env obj p).log.countP Event.isCallVoidMethod =
        p.log.countP Event.isCallVoidMethod + 1 ∧
      (PrintLnToString env obj p).log.countP Event.isLookup =
        p.log.countP Event.isLookup ∧
      (PrintLnToString env obj p).log.countP Event.isNewGlobalRef =
        p.log.countP Event.isNewGlobalRef ∧
      (PrintLnToString env obj p).log.filter Event.isLookup =
        p.log.filter Event.isLookup := by
  rw [PrintLnToString_resolved env obj p h]
  simp [List.countP_append, List.countP_cons, Event.isCallVoidMethod, Event.isLookup,
    Event.isFindClass, Event.isGetMethodID, Event.isGetStaticFieldID,
    Event.isCallObjectMethod, Event.isGetStaticObjectField, Event.isNewGlobalRef]

/-- Executions that start with all six slots filled keep the slots and add
one invocation of each kind per execution, and no lookup. -/
theorem callsPrintLnToString_resolved (env : JNI) (obj : jobject) (p : Proc)
    (h : p.allResolved) (k : Nat) :
    (callsPrintLnToString env obj k p).allResolved ∧
      callsPrintLnToString env obj k p =
        { p with log := (callsPrintLnToString env obj k p).log } ∧
      (callsPrintLnToString env obj k p).log.countP Event.isCallObjectMethod =
        p.log.countP Event.isCallObjectMethod + k ∧
      (callsPrintLnToString env obj k p).log.countP Event.isGetStaticObjectField =
        p.log.countP Event.isGetStaticObjectField + k ∧
      (callsPrintLnToString env obj k p).log.countP Event.isCallVoidMethod =
        p.log.countP Event.isCallVoidMethod + k ∧
      (callsPrintLnToString env obj k p).log.countP Event.isLookup =
        p.log.countP Event.isLookup ∧
      (callsPrintLnToString env obj k p).log.countP Event.isNewGlobalRef =
        p.log.countP Event.isNewGlobalRef ∧
      (callsPrintLnToString env obj k p).log.filter Event.isLookup =
        p.log.filter Event.isLookup := by
  induction k with
  | zero => exact ⟨h, rfl, rfl, rfl, rfl, rfl, rfl, rfl⟩
  | succ k ih =>
    obtain ⟨r, e, n1, n2, n3, n4, n5, n6⟩ := ih
    obtain ⟨r2, e2⟩ := PrintLnToString_resolved_slots env obj _ r
    obtain ⟨m1, m2, m3, m4, m5, m6⟩ := PrintLnToString_resolved_counts env obj _ r
    rw [callsPrintLnToString_succ env obj k]
    refine ⟨r2, ?_, ?_, ?_, ?_, ?_, ?_, ?_⟩
    · rw [e2]
      rw [e]
    · rw [m1, n1]
      omega
    · rw [m2, n2]
      omega
    · rw [m3, n3]
      omega
    · rw [m4, n4]
    · rw [m5, n5]
    · rw [m6, n6]

/-! ## C8: repeated `PrintLn(env, ToString(env, obj))` -/

/-- C8. For every object reference `obj`, every prior history `log` and
every `n ≥ 1`. Let `a` name what the interface answers to the eleven calls
of a first execution of `PrintLn(env, ToString(env, obj))` (hypotheses `h0`
to `h10`: each is one call of the interface, made at the history logged so
far), and let the six identifiers among these answers be non-null
(`hres`: resolution succeeds). Then, in a process whose slots start empty:
(1) the first execution fills the six slots with those answers and logs
exactly `firstExecution obj a`: the three class lookups with their
promotions, the two method lookups and the field lookup, `CallObjectMethod`
on `obj` with the `toString` identifier, `GetStaticObjectField(System, Out)`
and `CallVoidMethod` on the stream just read, with the `println` identifier
and the string `CallObjectMethod` returned;
(2) every later execution leaves the slots as they are and appends exactly
three events: `CallObjectMethod` on `obj` with the cached `toString`
identifier, `GetStaticObjectField` on the cached class and field, and
`CallVoidMethod` with the cached `println` identifier on the stream that
`GetStaticObjectField` returned in this execution, passing the string that
`CallObjectMethod` returned in this execution;
(3) after `n` executions the log holds `n` more `CallObjectMethod`, `n` more
`GetStaticObjectField` and `n` more `CallVoidMethod` calls than `log`, and
the lookups of the first execution and no others: three `FindClass` (each
with one `NewGlobalRef`), two `GetMethodID` and one `GetStaticFieldID`. -/
theorem printLnToString_repeated (env : JNI) (obj : jobject) (log : Log) (n : Nat)
    (a : Answers) (hn : 1 ≤ n)
    (h0 : env.FindClass log "java/lang/Object" = a.findObject)
    (h1 : env.NewGlobalRef (log ++ (firstExecution obj a).take 1) a.findObject = a.Object)
    (h2 : env.GetMethodID (log ++ (firstExecution obj a).take 2) a.Object
      "toString" "()Ljava/lang/String;" = a.ToString)
    (h3 : env.CallObjectMethod (log ++ (firstExecution obj a).take 3) obj a.ToString [] =
      a.str)
    (h4 : env.FindClass (log ++ (firstExecution obj a).take 4) "java/lang/System" =
      a.findSystem)
    (h5 : env.NewGlobalRef (log ++ (firstExecution obj a).take 5) a.findSystem = a.System)
    (h6 : env.GetStaticFieldID (log ++ (firstExecution obj a).take 6) a.System
      "out" "Ljava/io/PrintStream;" = a.Out)
    (h7 : env.GetStaticObjectField (log ++ (firstExecution obj a).take 7) a.System a.Out =
      a.out)
    (h8 : env.FindClass (log ++ (firstExecution obj a).take 8) "java/io/PrintStream" =
      a.findPrintStream)
    (h9 : env.NewGlobalRef (log ++ (firstExecution obj a).take 9) a.findPrintStream =
      a.PrintStream)
    (h10 : env.GetMethodID (log ++ (firstExecution obj a).take 10) a.PrintStream
      "println" "(Ljava/lang/String;)V" = a.PrintLn)
    (hres : a.Object ≠ NULL ∧ a.ToString ≠ NULL ∧ a.System ≠ NULL ∧ a.Out ≠ NULL ∧
      a.PrintStream ≠ NULL ∧ a.PrintLn ≠ NULL) :
    callsPrintLnToString env obj 1 (Proc.start log) =
        { Object := a.Object, ToString := a.ToString, System := a.System, Out := a.Out,
          PrintStream := a.PrintStream, PrintLn := a.PrintLn,
          log := log ++ firstExecution obj a } ∧
      (∀ k, 1 ≤ k → k < n →
        callsPrintLnToString env obj (k + 1) (Proc.start log) =
          { Object := a.Object, ToString := a.ToString, System := a.System, Out := a.Out,
            PrintStream := a.PrintStream, PrintLn := a.PrintLn,
            log := (callsPrintLnToString env obj k (Proc.start log)).log ++
              [Event.CallObjectMethod obj a.ToString []
                  (env.CallObjectMethod (callsPrintLnToString env obj k (Proc.start log)).log
                    obj a.ToString []),
                Event.GetStaticObjectField a.System a.Out
                  (env.GetStaticObjectField
                    ((callsPrintLnToString env obj k (Proc.start log)).log ++
                      [Event.CallObjectMethod obj a.ToString []
                        (env.CallObjectMethod
                          (callsPrintLnToString env obj k (Proc.start log)).log
                          obj a.ToString [])])
                    a.System a.Out),
                Event.CallVoidMethod
                  (env.GetStaticObjectField
                    ((callsPrintLnToString env obj k (Proc.start log)).log ++
                      [Event.CallObjectMethod obj a.ToString []
                        (env.CallObjectMethod
                          (callsPrintLnToString env obj k (Proc.start log)).log
                          obj a.ToString [])])
                    a.System a.Out)
                  a.PrintLn
                  [env.CallObjectMethod (callsPrintLnToString env obj k (Proc.start log)).log
                    obj a.ToString []]] }) ∧
      (callsPrintLnToString env obj n (Proc.start log)).log.countP Event.isCallObjectMethod =
        log.countP Event.isCallObjectMethod + n ∧
      (callsPrintLnToString env obj n (Proc.start log)).log.countP
          Event.isGetStaticObjectField = log.countP Event.isGetStaticObjectField + n ∧
      (callsPrintLnToString env obj n (Proc.start log)).log.countP Event.isCallVoidMethod =
        log.countP Event.isCallVoidMethod + n ∧
      (callsPrintLnToString env obj n (Proc.start log)).log.countP Event.isLookup =
        log.countP Event.isLookup + 6 ∧
      (callsPrintLnToString env obj n (Proc.start log)).log.countP Event.isNewGlobalRef =
        log.countP Event.isNewGlobalRef + 3 ∧
      (callsPrintLnToString env obj n (Proc.start log)).log.filter Event.isLookup =
        log.filter Event.isLookup ++ (firstExecution obj a).filter Event.isLookup := by
  have first := PrintLnToString_first env obj log a h0 h1 h2 h3 h4 h5 h6 h7 h8 h9 h10
  have later : ∀ k, callsPrintLnToString env obj (k + 1) (Proc.start log) =
      callsPrintLnToString env obj k
        { Object := a.Object, ToString := a.ToString, System := a.System, Out := a.Out,
          PrintStream := a.PrintStream, PrintLn := a.PrintLn,
          log := log ++ firstExecution obj a } := by
    intro k
    rw [callsPrintLnToString_succ_front, first]
  have inv := callsPrintLnToString_resolved env obj
    { Object := a.Object, ToString := a.ToString, System := a.System, Out := a.Out,
      PrintStream := a.PrintStream, PrintLn := a.PrintLn,
      log := log ++ firstExecution obj a } hres
  obtain ⟨j, rfl⟩ : ∃ j, n = j + 1 := ⟨n - 1, by omega⟩
  obtain ⟨_, _, c1, c2, c3, c4, c5, c6⟩ := inv j
  refine ⟨first, ?_, ?_, ?_, ?_, ?_, ?_, ?_⟩
  · intro k hk _
    obtain ⟨i, rfl⟩ : ∃ i, k = i + 1 := ⟨k - 1, by omega⟩
    obtain ⟨r, e, _⟩ := inv i
    rw [callsPrintLnToString_succ env obj (i + 1), later i,
      PrintLnToString_resolved env obj _ r]
    generalize callsPrintLnToString env obj i
      { Object := a.Object, ToString := a.ToString, System := a.System, Out := a.Out,
        PrintStream := a.PrintStream, PrintLn := a.PrintLn,
        log := log ++ firstExecution obj a } = q at e ⊢
    rw [e]
  · rw [later j, c1]
    simp [List.countP_append, List.countP_cons, firstExecution, Event.isCallObjectMethod]
    omega
  · rw [later j, c2]
    simp [List.countP_append, List.countP_cons, firstExecution,
      Event.isGetStaticObjectField]
    omega
  · rw [later j, c3]
    simp [List.countP_append, List.countP_cons, firstExecution, Event.isCallVoidMethod]
    omega
  · rw [later j, c4]
    simp [List.countP_append, List.countP_cons, firstExecution, Event.isLookup,
      Event.isFindClass, Event.isGetMethodID, Event.isGetStaticFieldID]
  · rw [later j, c5]
    simp [List.countP_append, List.countP_cons, firstExecution, Event.isNewGlobalRef]
  · rw [later j, c6]
    simp [List.filter_append]

/-- C8 at a concrete input: three executions for the object `7` on the
resolving runtime, whose answers are `resolvedAnswers`. -/
theorem printLnToString_repeated_witness :
    (resolvedAnswers.Object ≠ NULL ∧ resolvedAnswers.ToString ≠ NULL ∧
        resolvedAnswers.System ≠ NULL ∧ resolvedAnswers.Out ≠ NULL ∧
        resolvedAnswers.PrintStream ≠ NULL ∧ resolvedAnswers.PrintLn ≠ NULL) ∧
      callsPrintLnToString resolvingJNI 7 1 (Proc.start []) =
        { Object := 17, ToString := 19, System := 33, Out := 36, PrintStream := 49,
          PrintLn := 51, log := firstExecution 7 resolvedAnswers } ∧
      (callsPrintLnToString resolvingJNI 7 3 (Proc.start [])).log.countP
        Event.isCallObjectMethod = 3 ∧
      (callsPrintLnToString resolvingJNI 7 3 (Proc.start [])).log.countP
        Event.isCallVoidMethod = 3 ∧
      (callsPrintLnToString resolvingJNI 7 3 (Proc.start [])).log.countP
        Event.isLookup = 6 ∧
      (callsPrintLnToString resolvingJNI 7 3 (Proc.start [])).log.drop 12 =
        [Event.CallObjectMethod 7 19 [] 1007, Event.GetStaticObjectField 33 36 69,
          Event.CallVoidMethod 69 51 [1007],
          Event.CallObjectMethod 7 19 [] 1007, Event.GetStaticObjectField 33 36 69,
          Event.CallVoidMethod 69 51 [1007]] := by
  have h := printLnToString_repeated resolvingJNI 7 [] 3 resolvedAnswers (by decide)
    rfl rfl rfl rfl rfl rfl rfl rfl rfl rfl rfl (by decide)
  exact ⟨by decide, h.1, h.2.2.1, h.2.2.2.2.1, h.2.2.2.2.2.1, by decide⟩

/-! ## C10: the final invocation is not guarded -/

/-- C10. For every interface, every state of the slots and every history:
(1) one `ToString` call logs the lookups that fill its empty slots and then
exactly one `CallObjectMethod`, whose identifier argument is whatever the
`ToString` slot holds after the caching blocks, and `GetMethodID` receives
whatever the `Object` slot holds;
(2) one `PrintLn` call logs exactly one `GetStaticObjectField` and exactly one
`CallVoidMethod`, with the slot values passed on in the same way;
(3) when the slots were empty and are still `NULL` after the call (every
lookup of the call returned `NULL`), the `NULL` class is the argument of
`GetMethodID` and `GetStaticFieldID` and the `NULL` identifier is the
argument of `GetStaticObjectField`, `CallObjectMethod` and
`CallVoidMethod`. -/
theorem toString_printLn_invoke_unguarded (env : JNI) (obj : jobject) (str : jstring)
    (p : Proc) :
    (∃ c, (ToString env obj p).2.log =
        p.log ++
          ((if p.Object = NULL then
              [Event.FindClass "java/lang/Object" c,
                Event.NewGlobalRef c (ToString env obj p).2.Object]
            else []) ++
          (if p.ToString = NULL then
              [Event.GetMethodID (ToString env obj p).2.Object "toString"
                "()Ljava/lang/String;" (ToString env obj p).2.ToString]
            else []) ++
          [Event.CallObjectMethod obj (ToString env obj p).2.ToString []
            (ToString env obj p).1])) ∧
      (ToString env obj p).2.log.countP Event.isCallObjectMethod =
        p.log.countP Event.isCallObjectMethod + 1 ∧
      (∃ c1 c2 out, (PrintLn env str p).log =
        p.log ++
          ((if p.System = NULL then
              [Event.FindClass "java/lang/System" c1,
                Event.NewGlobalRef c1 (PrintLn env str p).System]
            else []) ++
          (if p.Out = NULL then
              [Event.GetStaticFieldID (PrintLn env str p).System "out"
                "Ljava/io/PrintStream;" (PrintLn env str p).Out]
            else []) ++
          [Event.GetStaticObjectField (PrintLn env str p).System (PrintLn env str p).Out
            out] ++
          (if p.PrintStream = NULL then
              [Event.FindClass "java/io/PrintStream" c2,
                Event.NewGlobalRef c2 (PrintLn env str p).PrintStream]
            else []) ++
          (if p.PrintLn = NULL then
              [Event.GetMethodID (PrintLn env str p).PrintStream "println"
                "(Ljava/lang/String;)V" (PrintLn env str p).PrintLn]
            else []) ++
          [Event.CallVoidMethod out (PrintLn env str p).PrintLn [str]])) ∧
      (PrintLn env str p).log.countP Event.isGetStaticObjectField =
        p.log.countP Event.isGetStaticObjectField + 1 ∧
      (PrintLn env str p).log.countP Event.isCallVoidMethod =
        p.log.countP Event.isCallVoidMethod + 1 ∧
      (p.Object = NULL → p.ToString = NULL →
        (ToString env obj p).2.Object = NULL → (ToString env obj p).2.ToString = NULL →
        ∃ c, (ToString env obj p).2.log =
          p.log ++
            [Event.FindClass "java/lang/Object" c, Event.NewGlobalRef c NULL,
              Event.GetMethodID NULL "toString" "()Ljava/lang/String;" NULL,
              Event.CallObjectMethod obj NULL [] (ToString env obj p).1]) ∧
      (p.System = NULL → p.Out = NULL → p.PrintStream = NULL → p.PrintLn = NULL →
        (PrintLn env str p).System = NULL → (PrintLn env str p).Out = NULL →
        (PrintLn env str p).PrintStream = NULL → (PrintLn env str p).PrintLn = NULL →
        ∃ c1 c2 out, (PrintLn env str p).log =
          p.log ++
            [Event.FindClass "java/lang/System" c1, Event.NewGlobalRef c1 NULL,
              Event.GetStaticFieldID NULL "out" "Ljava/io/PrintStream;" NULL,
              Event.GetStaticObjectField NULL NULL out,
              Event.FindClass "java/io/PrintStream" c2, Event.NewGlobalRef c2 NULL,
              Event.GetMethodID NULL "println" "(Ljava/lang/String;)V" NULL,
              Event.CallVoidMethod out NULL [str]]) := by
  refine ⟨ToString_log env obj p, ToString_count env obj p, PrintLn_log env str p,
    (PrintLn_count env str p).1, (PrintLn_count env str p).2, ?_, ?_⟩
  · intro h1 h2 h3 h4
    obtain ⟨c, h⟩ := ToString_log env obj p
    refine ⟨c, ?_⟩
    rw [h, h3, h4]
    simp [h1, h2]
  · intro h1 h2 h3 h4 h5 h6 h7 h8
    obtain ⟨c1, c2, out, h⟩ := PrintLn_log env str p
    refine ⟨c1, c2, out, ?_⟩
    rw [h, h5, h6, h7, h8]
    simp [h1, h2, h3, h4]

/-- C10 at a concrete input: on the runtime where nothing resolves, `ToString`
and `PrintLn` still make their invocations, with `NULL` arguments. -/
theorem toString_printLn_invoke_unguarded_witness :
    (∃ c, (ToString failingJNI 7 (Proc.start [])).2.log =
        [Event.FindClass "java/lang/Object" c, Event.NewGlobalRef c NULL,
          Event.GetMethodID NULL "toString" "()Ljava/lang/String;" NULL,
          Event.CallObjectMethod 7 NULL [] (ToString failingJNI 7 (Proc.start [])).1]) ∧
      (∃ c1 c2 out, (PrintLn failingJNI 9 (Proc.start [])).log =
        [Event.FindClass "java/lang/System" c1, Event.NewGlobalRef c1 NULL,
          Event.GetStaticFieldID NULL "out" "Ljava/io/PrintStream;" NULL,
          Event.GetStaticObjectField NULL NULL out,
          Event.FindClass "java/io/PrintStream" c2, Event.NewGlobalRef c2 NULL,
          Event.GetMethodID NULL "println" "(Ljava/lang/String;)V" NULL,
          Event.CallVoidMethod out NULL [9]]) ∧
      (ToString failingJNI 7 (Proc.start [])).2.log.countP Event.isCallObjectMethod = 1 ∧
      (PrintLn failingJNI 9 (Proc.start [])).log.countP Event.isCallVoidMethod = 1 :=
  ⟨(toString_printLn_invoke_unguarded failingJNI 7 9 (Proc.start [])).2.2.2.2.2.1
      rfl rfl rfl rfl,
    (toString_printLn_invoke_unguarded failingJNI 7 9 (Proc.start [])).2.2.2.2.2.2
      rfl rfl rfl rfl rfl rfl rfl rfl,
    (toString_printLn_invoke_unguarded failingJNI 7 9 (Proc.start [])).2.1,
    (toString_printLn_invoke_unguarded failingJNI 7 9 (Proc.start [])).2.2.2.2.1⟩

/-! ## `main` -/

theorem main_usage (env : JNI) (fmt : Ptr → String) (argc : Int) (argv : Nat → String)
    (h : argc ≠ 2) :
    main env fmt argc argv =
      { log := [Event.printf ("usage: " ++ argv 0 ++ " CLASS_NAME\n")],
        status := some EXIT_FAILURE } := by
  simp [main, h]

theorem main_lookup (env : JNI) (fmt : Ptr → String) (argv : Nat → String)
    (hvm : env.JNI_CreateJavaVM [] vm_args = JNI_OK) :
    ∃ destroyed, main env fmt 2 argv =
      { log :=
          [Event.JNI_CreateJavaVM vm_args JNI_OK,
            Event.FindClass (argv 1)
              (env.FindClass [Event.JNI_CreateJavaVM vm_args JNI_OK] (argv 1)),
            Event.printf
              (fmt (env.FindClass [Event.JNI_CreateJavaVM vm_args JNI_OK] (argv 1)) ++ "\n"),
            Event.DestroyJavaVM destroyed],
        status := some EXIT_SUCCESS } :=
  ⟨_, by simp [main, hvm]; rfl⟩

/-- C4. For every invocation of `main` with `argc ≠ 2`, `main` writes the
line `usage: <argv[0]> CLASS_NAME` and nothing else, returns `EXIT_FAILURE`
(which differs from `EXIT_SUCCESS`), and makes no boundary call: no event
of its log is a JNI call, in particular none is `JNI_CreateJavaVM`,
`FindClass` or `DestroyJavaVM`. -/
theorem main_usage_on_wrong_argc (env : JNI) (fmt : Ptr → String) (argc : Int)
    (argv : Nat → String) (h : argc ≠ 2) :
    (main env fmt argc argv).log =
        [Event.printf ("usage: " ++ argv 0 ++ " CLASS_NAME\n")] ∧
      (main env fmt argc argv).status = some EXIT_FAILURE ∧
      EXIT_FAILURE ≠ EXIT_SUCCESS ∧
      boundary (main env fmt argc argv).log = [] ∧
      (main env fmt argc argv).log.countP Event.isCreateJavaVM = 0 ∧
      (main env fmt argc argv).log.countP Event.isFindClass = 0 ∧
      (main env fmt argc argv).log.countP Event.isDestroyJavaVM = 0 := by
  rw [main_usage env fmt argc argv h]
  exact ⟨rfl, rfl, by decide, rfl, rfl, rfl, rfl⟩

/-- C4 at concrete inputs: no argument (`argc = 1`) and two arguments
(`argc = 3`). -/
theorem main_usage_on_wrong_argc_witness :
    main resolvingJNI fmtPtr 1 argvNone =
        { log := [Event.printf "usage: FindClass CLASS_NAME\n"], status := some 1 } ∧
      main resolvingJNI fmtPtr 3 argvTwo =
        { log := [Event.printf "usage: FindClass CLASS_NAME\n"], status := some 1 } ∧
      boundary (main resolvingJNI fmtPtr 1 argvNone).log = [] ∧
      boundary (main resolvingJNI fmtPtr 3 argvTwo).log = [] :=
  ⟨by decide, by decide,
    (main_usage_on_wrong_argc resolvingJNI fmtPtr 1 argvNone (by decide)).2.2.2.1,
    (main_usage_on_wrong_argc resolvingJNI fmtPtr 3 argvTwo (by decide)).2.2.2.1⟩

/-! ## C5: the exit status does not depend on the lookup -/

/-- C5. For every invocation of `main` with exactly one argument
(`argc = 2`) in which `JNI_CreateJavaVM` returns `JNI_OK`: `main` returns,
with exit status `EXIT_SUCCESS` (`0`), whatever `FindClass` returns; exactly
one `FindClass` call is made, for `argv[1]`; and the one line `main` prints
is the `%p` rendering of the reference that call returned (of `NULL` when it
returned `NULL`). -/
theorem main_status_independent_of_lookup (env : JNI) (fmt : Ptr → String) (argc : Int)
    (argv : Nat → String) (hargc : argc = 2)
    (hvm : env.JNI_CreateJavaVM [] vm_args = JNI_OK) :
    (main env fmt argc argv).status = some EXIT_SUCCESS ∧
      EXIT_SUCCESS = 0 ∧
      (main env fmt argc argv).log.filter Event.isFindClass =
        [Event.FindClass (argv 1)
          (env.FindClass [Event.JNI_CreateJavaVM vm_args JNI_OK] (argv 1))] ∧
      (main env fmt argc argv).log.filter (fun e => !e.isBoundary) =
        [Event.printf
          (fmt (env.FindClass [Event.JNI_CreateJavaVM vm_args JNI_OK] (argv 1)) ++ "\n")] ∧
      (env.FindClass [Event.JNI_CreateJavaVM vm_args JNI_OK] (argv 1) = NULL →
        (main env fmt argc argv).log.filter (fun e => !e.isBoundary) =
          [Event.printf (fmt NULL ++ "\n")]) := by
  subst hargc
  obtain ⟨d, h⟩ := main_lookup env fmt argv hvm
  rw [h]
  refine ⟨rfl, rfl, ?_, ?_, ?_⟩
  · simp [List.filter, Event.isFindClass]
  · simp [List.filter, Event.isBoundary]
  · intro h0
    simp [List.filter, Event.isBoundary, h0]

/-- C5 at concrete inputs: a class the runtime finds and one it does not;
both runs exit with status `0`. -/
theorem main_status_independent_of_lookup_witness :
    resolvingJNI.JNI_CreateJavaVM [] vm_args = JNI_OK ∧
      (main resolvingJNI fmtPtr 2 argvString).status = some 0 ∧
      (main resolvingJNI fmtPtr 2 argvMissing).status = some 0 ∧
      (main resolvingJNI fmtPtr 2 argvString).log.filter (fun e => !e.isBoundary) =
        [Event.printf "0x40\n"] ∧
      (main resolvingJNI fmtPtr 2 argvMissing).log.filter (fun e => !e.isBoundary) =
        [Event.printf "(nil)\n"] :=
  ⟨rfl,
    (main_status_independent_of_lookup resolvingJNI fmtPtr 2 argvString rfl rfl).1,
    (main_status_independent_of_lookup resolvingJNI fmtPtr 2 argvMissing rfl rfl).1,
    by decide,
    (main_status_independent_of_lookup resolvingJNI fmtPtr 2 argvMissing rfl rfl).2.2.2.2
      (by decide)⟩

/-! ## C9: the order of boundary calls in `main` -/

/-- C9. For every invocation of `main` with exactly one argument
(`argc = 2`) in which `JNI_CreateJavaVM` returns `JNI_OK`, the boundary calls
of the run are exactly `JNI_CreateJavaVM`, `FindClass(argv[1])`,
`DestroyJavaVM`, in this order and once each; the whole log is these three
with the one `printf` between the lookup and the destruction, so
`DestroyJavaVM` is the last thing `main` does. -/
theorem main_boundary_trace (env : JNI) (fmt : Ptr → String) (argc : Int)
    (argv : Nat → String) (hargc : argc = 2)
    (hvm : env.JNI_CreateJavaVM [] vm_args = JNI_OK) :
    ∃ clazz destroyed,
      boundary (main env fmt argc argv).log =
          [Event.JNI_CreateJavaVM vm_args JNI_OK, Event.FindClass (argv 1) clazz,
            Event.DestroyJavaVM destroyed] ∧
        (main env fmt argc argv).log =
          [Event.JNI_CreateJavaVM vm_args JNI_OK, Event.FindClass (argv 1) clazz,
            Event.printf (fmt clazz ++ "\n"), Event.DestroyJavaVM destroyed] ∧
        (main env fmt argc argv).log.getLast? = some (Event.DestroyJavaVM destroyed) ∧
        (main env fmt argc argv).log.countP Event.isCreateJavaVM = 1 ∧
        (main env fmt argc argv).log.countP Event.isFindClass = 1 ∧
        (main env fmt argc argv).log.countP Event.isDestroyJavaVM = 1 := by
  subst hargc
  obtain ⟨d, h⟩ := main_lookup env fmt argv hvm
  rw [h]
  exact ⟨_, d, rfl, rfl, rfl, rfl, rfl, rfl⟩

/-- C9 at a concrete input: `FindClass java/lang/String` on the resolving
runtime. -/
theorem main_boundary_trace_witness :
    resolvingJNI.JNI_CreateJavaVM [] vm_args = JNI_OK ∧
      boundary (main resolvingJNI fmtPtr 2 argvString).log =
        [Event.JNI_CreateJavaVM vm_args JNI_OK, Event.FindClass "java/lang/String" 64,
          Event.DestroyJavaVM JNI_OK] ∧
      ∃ clazz destroyed,
        (main resolvingJNI fmtPtr 2 argvString).log.getLast? =
          some (Event.DestroyJavaVM destroyed) ∧
        (main resolvingJNI fmtPtr 2 argvString).log =
          [Event.JNI_CreateJavaVM vm_args JNI_OK, Event.FindClass (argvString 1) clazz,
            Event.printf (fmtPtr clazz ++ "\n"), Event.DestroyJavaVM destroyed] := by
  obtain ⟨clazz, destroyed, _, h2, h3, _⟩ :=
    main_boundary_trace resolvingJNI fmtPtr 2 argvString rfl rfl
  exact ⟨rfl, by decide, clazz, destroyed, h3, h2⟩

/-! ## C3: a failed VM creation -/

end IndyObfuscator
